import Mathlib

/-!
Verification of the `tutorial_perceptiveModels` example module
(`src/perceptiveModels/tutorial_perceptiveModels.cpp`).

The module drives one finger joint back and forth between the two ends of a
safe range derived from the joint limits, while a perceptive model reports
contact.  We embed the module shallowly: real-valued quantities (`double` in
the source) become `ℚ`, the member pointer `val` (which aims at either the
`min` or the `max` field) becomes a two-valued tag, and the external
collaborators (YARP driver, perceptive model library, encoder) become
oracle inputs.  Each tick of `updateModule` is a pure step function on the
module state that also returns the trace of adapter calls it issues.
-/

namespace PerceptiveModels

/-- The member pointer `double *val` of `ExampleModule` only ever holds the
address of the `min` field or of the `max` field. -/
inductive Ptr where
  | toMin : Ptr
  | toMax : Ptr
deriving DecidableEq

/-- State of `ExampleModule` relevant to the control loop: the `calibrate`
flag, the selected finger name and joint index, the safe bounds stored in the
(mutated) `min`/`max` members, and which of the two `val` points at. -/
structure ModuleState where
  calibrate : Bool
  fingerName : String
  joint : Int
  min : ℚ
  max : ℚ
  val : Ptr
deriving DecidableEq

/-- `*val` — dereference the pointer against the current `min`/`max`. -/
def derefVal (s : ModuleState) : ℚ :=
  match s.val with
  | Ptr.toMin => s.min
  | Ptr.toMax => s.max

/-- The toggle `val==&min?val=&max:val=&min` from `updateModule`. -/
def togglePtr (v : Ptr) : Ptr :=
  if v = Ptr.toMin then Ptr.toMax else Ptr.toMin

/-- Adapter and model calls issued by the module, in program order. -/
inductive Event where
  | calibrateCall (finger : String) (ok : Bool) : Event
  | setRefAcceleration (joint : Int) (acc : ℚ) : Event
  | setRefSpeed (joint : Int) (speed : ℚ) : Event
  | positionMove (joint : Int) (target : ℚ) : Event
  | report (finger : String) : Event
  | getEncoder (joint : Int) : Event
deriving DecidableEq

/-- Per-tick oracle inputs: the (ignored) result of `model->calibrate`,
whether `model->getNode(fingerName)` returns a non-null node, and the
encoder feedback read by `ienc->getEncoder`. -/
structure TickInput where
  calibrateOk : Bool
  nodeExists : Bool
  fb : ℚ
deriving DecidableEq

/-- The finger-dependent cruise speed from the first-tick branch:
ring and little get `60.0`, all other fingers get `30.0`. -/
def refSpeedFor (fingerName : String) : ℚ :=
  if fingerName = "ring" ∨ fingerName = "little" then 60 else 30

/-- One tick of `ExampleModule::updateModule`.  Returns the new state, the
trace of calls issued during the tick, and the boolean result of the tick
(the source ends with `return true;` unconditionally). -/
def updateModule (s : ModuleState) (t : TickInput) : ModuleState × List Event × Bool :=
  if s.calibrate then
    let s1 := { s with calibrate := false }
    (s1,
     [Event.calibrateCall s.fingerName t.calibrateOk,
      Event.setRefAcceleration s.joint 1000000000,
      Event.setRefSpeed s.joint (refSpeedFor s.fingerName),
      Event.positionMove s.joint (derefVal s)],
     true)
  else
    let reports := if t.nodeExists then [Event.report s.fingerName] else []
    if |derefVal s - t.fb| < 5 then
      let s1 := { s with val := togglePtr s.val }
      (s1,
       reports ++ [Event.getEncoder s.joint, Event.positionMove s.joint (derefVal s1)],
       true)
    else
      (s, reports ++ [Event.getEncoder s.joint], true)

/-- Run the module for a list of ticks, concatenating the traces. -/
def run (s : ModuleState) : List TickInput → ModuleState × List Event
  | [] => (s, [])
  | t :: ts =>
    let r := updateModule s t
    let rest := run r.1 ts
    (rest.1, r.2.1 ++ rest.2)

/-- Targets of the `positionMove` calls in a trace, in order. -/
def moveTargets (evs : List Event) : List ℚ :=
  evs.filterMap fun e =>
    match e with
    | Event.positionMove _ tgt => some tgt
    | _ => none

/-- The `model->calibrate` invocations in a trace. -/
def calibrateCalls (evs : List Event) : List (String × Bool) :=
  evs.filterMap fun e =>
    match e with
    | Event.calibrateCall f ok => some (f, ok)
    | _ => none

/-- The finger-name dispatch at the top of `ExampleModule::configure`:
the joint index controlled for each recognized finger, `none` for an
unknown finger. -/
def fingerJoint (fingerName : String) : Option Int :=
  if fingerName = "thumb" then some 10
  else if fingerName = "index" then some 12
  else if fingerName = "middle" then some 14
  else if fingerName = "ring" then some 15
  else if fingerName = "little" then some 15
  else none

/-- Joint limits as returned by `IControlLimits::getLimits`. -/
structure JointLimits where
  min : ℚ
  max : ℚ
deriving DecidableEq

/-- The safe range computed in `configure`:
`margin = 0.1*(max-min); min = min+margin; max = max-margin`. -/
def safeRange (l : JointLimits) : ℚ × ℚ :=
  let margin := (1 / 10 : ℚ) * (l.max - l.min)
  (l.min + margin, l.max - margin)

/-- Command-line options read at the top of `configure`. -/
structure Options where
  name : String
  robot : String
  hand : String
  modelType : String
  finger : String
deriving DecidableEq

/-- Oracle outcomes of the external calls made by `configure`: whether
`driver.open` succeeds, the limits reported for each joint, and whether
`model->fromProperty` succeeds. -/
structure ConfigureEnv where
  driverOpenOk : Bool
  limits : Int → JointLimits
  fromPropertyOk : Bool

/-- The ways `configure` can return `false`, in the order the source
checks them. -/
inductive ConfigureError where
  | unknownFinger : ConfigureError
  | driverOpenFailed : ConfigureError
  | unknownModelType : ConfigureError
  | fromPropertyFailed : ConfigureError
deriving DecidableEq

deriving instance DecidableEq for Except

/-- Result of `configure`: whether `driver.open` was ever attempted, the
remote port name handed to the driver (when one was built), and either the
configured module state or the failure. -/
structure ConfigureResult where
  openAttempted : Bool
  remote : Option String
  outcome : Except ConfigureError ModuleState
deriving DecidableEq

/-- `ExampleModule::configure`: resolve the finger to a joint (rejecting
unknown fingers before any driver activity), open the control-board driver
on `/<robot>/<hand>_arm`, shrink the limits by a 10% margin on each side,
aim `val` at `min`, select the model type, and load the model from the
property tree. -/
def configure (opts : Options) (env : ConfigureEnv) : ConfigureResult :=
  match fingerJoint opts.finger with
  | none => ⟨false, none, Except.error ConfigureError.unknownFinger⟩
  | some joint =>
    let remote := "/" ++ opts.robot ++ "/" ++ opts.hand ++ "_arm"
    if env.driverOpenOk then
      let l := env.limits joint
      let lo := (safeRange l).1
      let hi := (safeRange l).2
      if opts.modelType = "springy" ∨ opts.modelType = "tactile" then
        if env.fromPropertyOk then
          ⟨true, some remote, Except.ok ⟨true, opts.finger, joint, lo, hi, Ptr.toMin⟩⟩
        else
          ⟨true, some remote, Except.error ConfigureError.fromPropertyFailed⟩
      else
        ⟨true, some remote, Except.error ConfigureError.unknownModelType⟩
    else
      ⟨true, some remote, Except.error ConfigureError.driverOpenFailed⟩

/-- Session-level outcomes distinguished by the spec's exit-code table. -/
inductive SessionOutcome where
  | normalShutdown : SessionOutcome
  | networkUnavailable : SessionOutcome
  | configureFailed (e : ConfigureError) : SessionOutcome
  | calibrationFailed : SessionOutcome
  | jointFailure : SessionOutcome
deriving DecidableEq

/-- Alternation between the two ends of the safe range: each commanded
scan target is followed by the opposite end. -/
def altRel (lo hi a b : ℚ) : Prop :=
  (a = lo ∧ b = hi) ∨ (a = hi ∧ b = lo)

/-- Modelled from the spec: the exit-code mapping of the session harness
(`main` delegates to `RFModule::runModule`, whose body is not among the
sources).  The spec fixes: 0 normal shutdown; 1 network/middleware
unavailable; 2 configuration error (unknown finger or model); 3 calibration
failed; 4 joint I/O failure. -/
def exitCode : SessionOutcome → Nat
  | SessionOutcome.normalShutdown => 0
  | SessionOutcome.networkUnavailable => 1
  | SessionOutcome.configureFailed _ => 2
  | SessionOutcome.calibrationFailed => 3
  | SessionOutcome.jointFailure => 4

/-! ### Helper lemmas about single ticks and runs -/

theorem updateModule_calib (s : ModuleState) (t : TickInput) (hc : s.calibrate = true) :
    updateModule s t =
      ({ s with calibrate := false },
       [Event.calibrateCall s.fingerName t.calibrateOk,
        Event.setRefAcceleration s.joint 1000000000,
        Event.setRefSpeed s.joint (refSpeedFor s.fingerName),
        Event.positionMove s.joint (derefVal s)],
       true) := by
  simp [updateModule, hc]

theorem updateModule_scan_flip (s : ModuleState) (t : TickInput)
    (hc : s.calibrate = false) (hflip : |derefVal s - t.fb| < 5) :
    updateModule s t =
      ({ s with val := togglePtr s.val },
       (if t.nodeExists then [Event.report s.fingerName] else []) ++
         [Event.getEncoder s.joint,
          Event.positionMove s.joint (derefVal { s with val := togglePtr s.val })],
       true) := by
  simp [updateModule, hc, hflip]

theorem updateModule_scan_noflip (s : ModuleState) (t : TickInput)
    (hc : s.calibrate = false) (hflip : ¬ |derefVal s - t.fb| < 5) :
    updateModule s t =
      (s, (if t.nodeExists then [Event.report s.fingerName] else []) ++
        [Event.getEncoder s.joint], true) := by
  simp [updateModule, hc, hflip]

theorem run_nil (s : ModuleState) : run s [] = (s, []) := rfl

theorem run_cons (s : ModuleState) (t : TickInput) (ts : List TickInput) :
    run s (t :: ts) =
      ((run (updateModule s t).1 ts).1,
       (updateModule s t).2.1 ++ (run (updateModule s t).1 ts).2) := rfl

theorem moveTargets_append (a b : List Event) :
    moveTargets (a ++ b) = moveTargets a ++ moveTargets b := by
  simp [moveTargets]

theorem calibrateCalls_append (a b : List Event) :
    calibrateCalls (a ++ b) = calibrateCalls a ++ calibrateCalls b := by
  simp [calibrateCalls]

theorem derefVal_mem (s : ModuleState) : derefVal s = s.min ∨ derefVal s = s.max := by
  cases hv : s.val
  · left; simp [derefVal, hv]
  · right; simp [derefVal, hv]

theorem mem_moveTargets_run (s : ModuleState) (ts : List TickInput) (x : ℚ)
    (hx : x ∈ moveTargets (run s ts).2) : x = s.min ∨ x = s.max := by
  induction ts generalizing s with
  | nil => simp [run_nil, moveTargets] at hx
  | cons t ts ih =>
    rw [run_cons, moveTargets_append, List.mem_append] at hx
    cases hcal : s.calibrate with
    | true =>
      rw [updateModule_calib s t hcal] at hx
      rcases hx with hx | hx
      · have hx2 : x = derefVal s := by
          simpa [moveTargets] using hx
        exact hx2 ▸ derefVal_mem s
      · exact ih { s with calibrate := false } hx
    | false =>
      by_cases hflip : |derefVal s - t.fb| < 5
      · rw [updateModule_scan_flip s t hcal hflip] at hx
        rcases hx with hx | hx
        · have hx2 : x = derefVal { s with val := togglePtr s.val } := by
            cases hn : t.nodeExists <;> simpa [moveTargets, hn] using hx
          exact hx2 ▸ derefVal_mem { s with val := togglePtr s.val }
        · exact ih { s with val := togglePtr s.val } hx
      · rw [updateModule_scan_noflip s t hcal hflip] at hx
        rcases hx with hx | hx
        · exact absurd hx (by cases hn : t.nodeExists <;> simp [moveTargets, hn])
        · exact ih s hx

theorem calibrateCalls_run_scan (s : ModuleState) (ts : List TickInput)
    (hc : s.calibrate = false) : calibrateCalls (run s ts).2 = [] := by
  induction ts generalizing s with
  | nil => simp [run_nil, calibrateCalls]
  | cons t ts ih =>
    rw [run_cons, calibrateCalls_append]
    by_cases hflip : |derefVal s - t.fb| < 5
    · rw [updateModule_scan_flip s t hc hflip]
      have h1 : calibrateCalls ((if t.nodeExists then [Event.report s.fingerName] else []) ++
          [Event.getEncoder s.joint,
           Event.positionMove s.joint (derefVal { s with val := togglePtr s.val })]) = [] := by
        cases t.nodeExists <;> rfl
      rw [h1, List.nil_append]
      exact ih { s with val := togglePtr s.val } hc
    · rw [updateModule_scan_noflip s t hc hflip]
      have h1 : calibrateCalls ((if t.nodeExists then [Event.report s.fingerName] else []) ++
          [Event.getEncoder s.joint]) = [] := by
        cases t.nodeExists <;> rfl
      rw [h1, List.nil_append]
      exact ih s hc

theorem chain_altRel_run (s : ModuleState) (ts : List TickInput)
    (hc : s.calibrate = false) :
    List.Chain (altRel s.min s.max) (derefVal s) (moveTargets (run s ts).2) := by
  induction ts generalizing s with
  | nil => exact List.Chain.nil
  | cons t ts ih =>
    rw [run_cons, moveTargets_append]
    by_cases hflip : |derefVal s - t.fb| < 5
    · rw [updateModule_scan_flip s t hc hflip]
      have hmt : moveTargets ((if t.nodeExists then [Event.report s.fingerName] else []) ++
          [Event.getEncoder s.joint,
           Event.positionMove s.joint (derefVal { s with val := togglePtr s.val })]) =
          [derefVal { s with val := togglePtr s.val }] := by
        cases t.nodeExists <;> rfl
      rw [hmt]
      refine List.Chain.cons ?_ (ih { s with val := togglePtr s.val } hc)
      cases hv : s.val
      · exact Or.inl ⟨by simp [derefVal, hv], by simp [derefVal, togglePtr, hv]⟩
      · exact Or.inr ⟨by simp [derefVal, hv], by simp [derefVal, togglePtr, hv]⟩
    · rw [updateModule_scan_noflip s t hc hflip]
      have hmt : moveTargets ((if t.nodeExists then [Event.report s.fingerName] else []) ++
          [Event.getEncoder s.joint]) = [] := by
        cases t.nodeExists <;> rfl
      rw [hmt, List.nil_append]
      exact ih s hc

theorem configure_ok_inv (opts : Options) (env : ConfigureEnv) (s : ModuleState)
    (h : (configure opts env).outcome = Except.ok s) :
    fingerJoint opts.finger = some s.joint ∧ s.calibrate = true ∧
    s.fingerName = opts.finger ∧
    s.min = (safeRange (env.limits s.joint)).1 ∧
    s.max = (safeRange (env.limits s.joint)).2 ∧
    s.val = Ptr.toMin := by
  unfold configure at h
  cases hfj : fingerJoint opts.finger with
  | none => rw [hfj] at h; exact absurd h (by simp)
  | some j =>
    rw [hfj] at h
    simp only at h
    split_ifs at h with h1 h2 h3
    · simp only [Except.ok.injEq] at h
      subst h
      exact ⟨rfl, rfl, rfl, rfl, rfl, rfl⟩

theorem configure_remote (opts : Options) (env : ConfigureEnv) (j : Int)
    (h : fingerJoint opts.finger = some j) :
    (configure opts env).remote =
      some ("/" ++ opts.robot ++ "/" ++ opts.hand ++ "_arm") := by
  unfold configure
  rw [h]
  split_ifs <;> rfl

theorem configure_outcome_indep (o₁ o₂ : Options) (env : ConfigureEnv)
    (hf : o₁.finger = o₂.finger) (hm : o₁.modelType = o₂.modelType) :
    (configure o₁ env).outcome = (configure o₂ env).outcome ∧
    (configure o₁ env).openAttempted = (configure o₂ env).openAttempted := by
  unfold configure
  rw [hf, hm]
  cases fingerJoint o₂.finger with
  | none => exact ⟨rfl, rfl⟩
  | some j =>
    simp only
    split_ifs <;> exact ⟨rfl, rfl⟩

theorem configure_index_0_90 :
    configure ⟨"percex", "icub", "right", "tactile", "index"⟩
        ⟨true, fun _ => ⟨0, 90⟩, true⟩ =
      ⟨true, some "/icub/right_arm",
       Except.ok ⟨true, "index", 12, 9, 81, Ptr.toMin⟩⟩ := by
  simp only [configure, fingerJoint]
  norm_num [safeRange]
  rfl

/-! ### Claim theorems -/

/-- C1: for every joint with limits `(min, max)` reported by the Joint I/O
adapter, every position target the module ever commands via `positionMove` —
the initial command after calibration and every subsequent flipped target —
lies inside the safe range `[min + 0.1*(max-min), max - 0.1*(max-min)]`. -/
theorem C1_targets_within_safe_range (opts : Options) (env : ConfigureEnv)
    (s : ModuleState) (ts : List TickInput)
    (hok : (configure opts env).outcome = Except.ok s)
    (hlim : (env.limits s.joint).min ≤ (env.limits s.joint).max) :
    ∀ tgt ∈ moveTargets (run s ts).2,
      (env.limits s.joint).min +
          (1 / 10 : ℚ) * ((env.limits s.joint).max - (env.limits s.joint).min) ≤ tgt ∧
      tgt ≤ (env.limits s.joint).max -
          (1 / 10 : ℚ) * ((env.limits s.joint).max - (env.limits s.joint).min) := by
  intro tgt hmem
  obtain ⟨-, -, -, hmin, hmax, -⟩ := configure_ok_inv opts env s hok
  have hmin2 : s.min = (env.limits s.joint).min +
      (1 / 10 : ℚ) * ((env.limits s.joint).max - (env.limits s.joint).min) := by
    rw [hmin]; rfl
  have hmax2 : s.max = (env.limits s.joint).max -
      (1 / 10 : ℚ) * ((env.limits s.joint).max - (env.limits s.joint).min) := by
    rw [hmax]; rfl
  have hlohi : s.min ≤ s.max := by
    rw [hmin2, hmax2]; linarith
  rcases mem_moveTargets_run s ts tgt hmem with hm | hm <;> subst hm
  · exact ⟨hmin2.ge, by rw [← hmax2]; exact hlohi⟩
  · exact ⟨by rw [← hmin2]; exact hlohi, hmax2.le⟩

/-- Witness for C1 at the configured state for limits `(0, 90)` on joint 12:
the commanded target `9` of a two-tick run lies in the safe range. -/
theorem C1_targets_within_safe_range_witness :
    (0 : ℚ) + (1 / 10 : ℚ) * (90 - 0) ≤ 9 ∧
    (9 : ℚ) ≤ 90 - (1 / 10 : ℚ) * (90 - 0) :=
  C1_targets_within_safe_range ⟨"percex", "icub", "right", "tactile", "index"⟩
    ⟨true, fun _ => ⟨0, 90⟩, true⟩ ⟨true, "index", 12, 9, 81, Ptr.toMin⟩
    [⟨true, false, 0⟩, ⟨true, true, 6⟩] (by rw [configure_index_0_90]) (by norm_num)
    9 (by
      have hmt : moveTargets (run ⟨true, "index", 12, 9, 81, Ptr.toMin⟩
          [⟨true, false, 0⟩, ⟨true, true, 6⟩]).2 = [9, 81] := by
        norm_num [run, updateModule, moveTargets, derefVal, togglePtr, refSpeedFor]
        rfl
      rw [hmt]; simp)

/-- C2: the safe range is `lo = min + 0.1*(max-min)`, `hi = max - 0.1*(max-min)`;
for limits `(0, 90)` on joint 12 the safe range is `(9, 81)`, the first
commanded target is `9`, and once the encoder reads within 5 units of `9`
the next commanded target is `81`. -/
theorem C2_safe_range_and_first_targets :
    (∀ l : JointLimits,
      safeRange l = (l.min + (1 / 10 : ℚ) * (l.max - l.min),
                     l.max - (1 / 10 : ℚ) * (l.max - l.min))) ∧
    safeRange ⟨0, 90⟩ = (9, 81) ∧
    configure ⟨"percex", "icub", "right", "tactile", "index"⟩
        ⟨true, fun _ => ⟨0, 90⟩, true⟩ =
      ⟨true, some "/icub/right_arm",
       Except.ok ⟨true, "index", 12, 9, 81, Ptr.toMin⟩⟩ ∧
    moveTargets (run ⟨true, "index", 12, 9, 81, Ptr.toMin⟩
        [⟨true, false, 0⟩, ⟨true, true, 6⟩]).2 = [9, 81] :=
  ⟨fun _ => rfl, by norm_num [safeRange], configure_index_0_90,
   by norm_num [run, updateModule, moveTargets, derefVal, togglePtr, refSpeedFor]; rfl⟩

/-- C3: on every scanning tick where `|target - fb| < 5` the pointer toggle
`val==&min?val=&max:val=&min` flips the target and `positionMove` is issued
with the new target; consequently the commanded targets strictly alternate
between `lo` and `hi`. -/
theorem C3_flip_toggles_and_alternates (s : ModuleState) (t : TickInput)
    (ts : List TickInput) (hc : s.calibrate = false) :
    (|derefVal s - t.fb| < 5 →
      (updateModule s t).1.val = togglePtr s.val ∧
      Event.positionMove s.joint (derefVal (updateModule s t).1) ∈
        (updateModule s t).2.1) ∧
    List.Chain (altRel s.min s.max) (derefVal s) (moveTargets (run s ts).2) ∧
    (∀ a b : ℚ, s.min ≠ s.max → altRel s.min s.max a b → a ≠ b) := by
  refine ⟨fun hflip => ?_, chain_altRel_run s ts hc, ?_⟩
  · rw [updateModule_scan_flip s t hc hflip]
    exact ⟨rfl, by simp⟩
  · intro a b hne hab
    rcases hab with ⟨ha, hb⟩ | ⟨ha, hb⟩ <;> subst ha <;> subst hb
    · exact hne
    · exact hne.symm

/-- Witness for C3: at the state `lo = 9`, `hi = 81` with the pointer at the
lower bound, a tick with feedback `6` toggles the pointer, and the emitted
scan targets form an alternating chain. -/
theorem C3_flip_toggles_and_alternates_witness :
    (updateModule ⟨false, "index", 12, 9, 81, Ptr.toMin⟩ ⟨true, true, 6⟩).1.val =
      Ptr.toMax ∧
    List.Chain (altRel 9 81) 9
      (moveTargets (run ⟨false, "index", 12, 9, 81, Ptr.toMin⟩
        [⟨true, true, 6⟩, ⟨true, true, 80⟩]).2) := by
  have h := C3_flip_toggles_and_alternates ⟨false, "index", 12, 9, 81, Ptr.toMin⟩
      ⟨true, true, 6⟩ [⟨true, true, 6⟩, ⟨true, true, 80⟩] rfl
  exact ⟨(h.1 (by norm_num [derefVal])).1, h.2.1⟩

/-- C4 counterexample: with calibration failing on the first tick
(`calibrateOk = false`), `updateModule` still returns `true` — the session
does not terminate — and the module moves on to scanning. -/
theorem C4_counterexample :
    (⟨true, "index", 12, 9, 81, Ptr.toMin⟩ : ModuleState).calibrate = true ∧
    (⟨false, false, 0⟩ : TickInput).calibrateOk = false ∧
    (updateModule ⟨true, "index", 12, 9, 81, Ptr.toMin⟩ ⟨false, false, 0⟩).2.2 = true ∧
    (updateModule ⟨true, "index", 12, 9, 81, Ptr.toMin⟩
      ⟨false, false, 0⟩).1.calibrate = false :=
  ⟨rfl, rfl, rfl, rfl⟩

/-- C4 (amended): the result of `model->calibrate` is ignored: even when the
call fails on the first tick, the tick completes the motion setup, commands
the joint, returns `true`, and the module proceeds to scanning. -/
theorem C4_calibrate_failure_ignored (s : ModuleState) (t : TickInput)
    (hc : s.calibrate = true) (hfail : t.calibrateOk = false) :
    (updateModule s t).2.2 = true ∧
    (updateModule s t).1.calibrate = false ∧
    (updateModule s t).2.1 =
      [Event.calibrateCall s.fingerName false,
       Event.setRefAcceleration s.joint 1000000000,
       Event.setRefSpeed s.joint (refSpeedFor s.fingerName),
       Event.positionMove s.joint (derefVal s)] := by
  rw [updateModule_calib s t hc, hfail]
  exact ⟨rfl, rfl, rfl⟩

/-- Witness for C4 (amended) at a concrete state and a failing calibration. -/
theorem C4_calibrate_failure_ignored_witness :
    (updateModule ⟨true, "thumb", 10, 9, 81, Ptr.toMin⟩ ⟨false, true, 0⟩).2.2 = true ∧
    (updateModule ⟨true, "thumb", 10, 9, 81, Ptr.toMin⟩
      ⟨false, true, 0⟩).1.calibrate = false := by
  have h := C4_calibrate_failure_ignored ⟨true, "thumb", 10, 9, 81, Ptr.toMin⟩
      ⟨false, true, 0⟩ rfl rfl
  exact ⟨h.1, h.2.1⟩

/-- C5: when the finger option is not a recognized finger name (e.g.
`pinky`), `configure` fails before the Joint I/O adapter is opened — no
`driver.open` occurs — and per the spec-modelled exit-code table the process
exits with code 2. -/
theorem C5_unknown_finger_rejected_before_open (opts : Options) (env : ConfigureEnv)
    (h : opts.finger = "pinky") :
    (configure opts env).openAttempted = false ∧
    (configure opts env).outcome = Except.error ConfigureError.unknownFinger ∧
    exitCode (SessionOutcome.configureFailed ConfigureError.unknownFinger) = 2 := by
  have hfj : fingerJoint opts.finger = none := by rw [h]; rfl
  unfold configure
  rw [hfj]
  exact ⟨rfl, rfl, rfl⟩

/-- Witness for C5 with concrete options `--finger pinky`. -/
theorem C5_unknown_finger_rejected_before_open_witness :
    (configure ⟨"percex", "icub", "right", "springy", "pinky"⟩
      ⟨true, fun _ => ⟨0, 90⟩, true⟩).openAttempted = false ∧
    (configure ⟨"percex", "icub", "right", "springy", "pinky"⟩
      ⟨true, fun _ => ⟨0, 90⟩, true⟩).outcome =
      Except.error ConfigureError.unknownFinger := by
  have h := C5_unknown_finger_rejected_before_open
      ⟨"percex", "icub", "right", "springy", "pinky"⟩ ⟨true, fun _ => ⟨0, 90⟩, true⟩ rfl
  exact ⟨h.1, h.2.1⟩

/-- C6: the controlled joint index for each recognized finger name is exactly
thumb = 10, index = 12, middle = 14, ring = 15, little = 15 (ring and little
share joint 15). -/
theorem C6_finger_joint_mapping :
    fingerJoint "thumb" = some 10 ∧ fingerJoint "index" = some 12 ∧
    fingerJoint "middle" = some 14 ∧ fingerJoint "ring" = some 15 ∧
    fingerJoint "little" = some 15 :=
  ⟨rfl, rfl, rfl, rfl, rfl⟩

/-- C7: on the first tick, after calibration returns, the module sets a very
high reference acceleration (`1e9`) and a cruise speed of 60 for ring or
little and 30 for every other finger; `--finger ring` resolves to joint 15
with speed 60 and `--finger middle` to joint 14 with speed 30. -/
theorem C7_first_tick_speed_and_acceleration (s : ModuleState) (t : TickInput)
    (hc : s.calibrate = true) :
    (updateModule s t).2.1 =
      [Event.calibrateCall s.fingerName t.calibrateOk,
       Event.setRefAcceleration s.joint 1000000000,
       Event.setRefSpeed s.joint (refSpeedFor s.fingerName),
       Event.positionMove s.joint (derefVal s)] ∧
    (∀ f : String, f = "ring" ∨ f = "little" → refSpeedFor f = 60) ∧
    (∀ f : String, ¬(f = "ring" ∨ f = "little") → refSpeedFor f = 30) ∧
    refSpeedFor "ring" = 60 ∧ refSpeedFor "middle" = 30 ∧
    fingerJoint "ring" = some 15 ∧ fingerJoint "middle" = some 14 := by
  refine ⟨?_, ?_, ?_, rfl, rfl, rfl, rfl⟩
  · rw [updateModule_calib s t hc]
  · intro f hf; simp [refSpeedFor, hf]
  · intro f hf; simp [refSpeedFor, hf]

/-- Witness for C7: concrete first tick for the ring finger on joint 15. -/
theorem C7_first_tick_speed_and_acceleration_witness :
    (updateModule ⟨true, "ring", 15, 9, 81, Ptr.toMin⟩ ⟨true, true, 0⟩).2.1 =
      [Event.calibrateCall "ring" true,
       Event.setRefAcceleration 15 1000000000,
       Event.setRefSpeed 15 60,
       Event.positionMove 15 9] := by
  have h := (C7_first_tick_speed_and_acceleration ⟨true, "ring", 15, 9, 81, Ptr.toMin⟩
      ⟨true, true, 0⟩ rfl).1
  simpa [refSpeedFor, derefVal] using h

/-- C8: `model->calibrate` is invoked exactly once over the module's lifetime
— on the first tick — and on that same tick the joint is commanded to `lo`
(`val` points at the lower safe bound); no subsequent tick calibrates
again. -/
theorem C8_calibrate_exactly_once (s : ModuleState) (t : TickInput)
    (ts : List TickInput) (hc : s.calibrate = true) (hv : s.val = Ptr.toMin) :
    calibrateCalls (run s (t :: ts)).2 = [(s.fingerName, t.calibrateOk)] ∧
    Event.positionMove s.joint s.min ∈ (updateModule s t).2.1 ∧
    (updateModule s t).1.calibrate = false ∧
    calibrateCalls (run (updateModule s t).1 ts).2 = [] := by
  have hstep := updateModule_calib s t hc
  have hderef : derefVal s = s.min := by simp [derefVal, hv]
  have hscan : calibrateCalls (run (updateModule s t).1 ts).2 = [] := by
    rw [hstep]; exact calibrateCalls_run_scan _ ts rfl
  refine ⟨?_, ?_, ?_, hscan⟩
  · rw [run_cons, calibrateCalls_append, hstep]
    have h1 : calibrateCalls
        [Event.calibrateCall s.fingerName t.calibrateOk,
         Event.setRefAcceleration s.joint 1000000000,
         Event.setRefSpeed s.joint (refSpeedFor s.fingerName),
         Event.positionMove s.joint (derefVal s)] = [(s.fingerName, t.calibrateOk)] := rfl
    rw [h1, calibrateCalls_run_scan _ ts rfl, List.append_nil]
  · rw [hstep, hderef]
    simp
  · rw [hstep]

/-- Witness for C8: a three-tick run calibrates exactly once. -/
theorem C8_calibrate_exactly_once_witness :
    calibrateCalls (run ⟨true, "index", 12, 9, 81, Ptr.toMin⟩
      [⟨true, true, 0⟩, ⟨true, true, 8⟩, ⟨true, true, 80⟩]).2 = [("index", true)] :=
  (C8_calibrate_exactly_once ⟨true, "index", 12, 9, 81, Ptr.toMin⟩ ⟨true, true, 0⟩
    [⟨true, true, 8⟩, ⟨true, true, 80⟩] rfl rfl).1

/-- C9 (implicit): the `hand`, `robot` and `name` options are never validated
by `configure`: for any values of those options — with the finger and model
type held fixed — the outcome and whether the adapter is opened are
unchanged, and the hand value is only concatenated into the remote port
name `/<robot>/<hand>_arm`. -/
theorem C9_hand_robot_name_not_validated (o₁ o₂ : Options) (env : ConfigureEnv)
    (hf : o₁.finger = o₂.finger) (hm : o₁.modelType = o₂.modelType) :
    (configure o₁ env).outcome = (configure o₂ env).outcome ∧
    (configure o₁ env).openAttempted = (configure o₂ env).openAttempted ∧
    (∀ j : Int, fingerJoint o₁.finger = some j →
      (configure o₁ env).remote =
        some ("/" ++ o₁.robot ++ "/" ++ o₁.hand ++ "_arm")) := by
  obtain ⟨h1, h2⟩ := configure_outcome_indep o₁ o₂ env hf hm
  exact ⟨h1, h2, fun j hj => configure_remote o₁ env j hj⟩

/-- Witness for C9: an unrecognized hand value `banana` configures exactly
like `right` and flows only into the remote port name. -/
theorem C9_hand_robot_name_not_validated_witness :
    (configure ⟨"percex", "icub", "banana", "springy", "index"⟩
        ⟨true, fun _ => ⟨0, 90⟩, true⟩).outcome =
      (configure ⟨"percex", "icub", "right", "springy", "index"⟩
        ⟨true, fun _ => ⟨0, 90⟩, true⟩).outcome ∧
    (configure ⟨"percex", "icub", "banana", "springy", "index"⟩
      ⟨true, fun _ => ⟨0, 90⟩, true⟩).remote = some "/icub/banana_arm" := by
  have h := C9_hand_robot_name_not_validated
      ⟨"percex", "icub", "banana", "springy", "index"⟩
      ⟨"percex", "icub", "right", "springy", "index"⟩
      ⟨true, fun _ => ⟨0, 90⟩, true⟩ rfl rfl
  exact ⟨h.1, (h.2.2 12 rfl).trans rfl⟩

/-- C10 (implicit): during scanning, when the model has no node for the
configured finger, the tick emits no report line but still reads the encoder
and, when the flip condition holds, still toggles the target and issues the
position move; the tick always returns success. -/
theorem C10_scan_without_node (s : ModuleState) (t : TickInput)
    (hc : s.calibrate = false) (hn : t.nodeExists = false) :
    (updateModule s t).2.2 = true ∧
    (∀ f : String, Event.report f ∉ (updateModule s t).2.1) ∧
    Event.getEncoder s.joint ∈ (updateModule s t).2.1 ∧
    (|derefVal s - t.fb| < 5 →
      (updateModule s t).1.val = togglePtr s.val ∧
      (updateModule s t).2.1 = [Event.getEncoder s.joint,
        Event.positionMove s.joint (derefVal { s with val := togglePtr s.val })]) ∧
    (¬ |derefVal s - t.fb| < 5 →
      (updateModule s t).1 = s ∧
      (updateModule s t).2.1 = [Event.getEncoder s.joint]) := by
  by_cases hflip : |derefVal s - t.fb| < 5
  · rw [updateModule_scan_flip s t hc hflip]
    refine ⟨rfl, ?_, ?_, fun _ => ⟨rfl, ?_⟩, fun h => absurd hflip h⟩
    · intro f; simp [hn]
    · simp [hn]
    · simp [hn]
  · rw [updateModule_scan_noflip s t hc hflip]
    refine ⟨rfl, ?_, ?_, fun h => absurd h hflip, fun _ => ⟨rfl, ?_⟩⟩
    · intro f; simp [hn]
    · simp [hn]
    · simp [hn]

/-- Witness for C10: a scanning tick with no node, feedback within 5 of the
target: no report, encoder read, move issued to the opposite bound. -/
theorem C10_scan_without_node_witness :
    (updateModule ⟨false, "index", 12, 9, 81, Ptr.toMin⟩ ⟨true, false, 6⟩).2.2 = true ∧
    (updateModule ⟨false, "index", 12, 9, 81, Ptr.toMin⟩ ⟨true, false, 6⟩).2.1 =
      [Event.getEncoder 12, Event.positionMove 12 81] := by
  have h := C10_scan_without_node ⟨false, "index", 12, 9, 81, Ptr.toMin⟩
      ⟨true, false, 6⟩ rfl rfl
  refine ⟨h.1, ?_⟩
  have h2 := (h.2.2.2.1 (by norm_num [derefVal])).2
  simpa [derefVal, togglePtr] using h2

end PerceptiveModels
